import Mathlib

/-!
Shallow embedding of `corenlp/models.py`: the four Django model classes
(`Document`, `Sentence`, `Mention`, `Relation`) become row structures, the
database becomes an explicit `DBState` (lists of rows, in insertion order,
plus the sentence primary-key sequence), and `Document.annotate` becomes a
state-passing function.  The external `CoreNLPService().annotate` call is a
parameter `svc : String → Except Unit AnnotatedDocument`; a possible failure
of the bulk insert is a parameter `insertOk : Bool`.  `transaction.atomic()`
is the combinator `atomic`: on an exception inside the block the state seen
by the caller is the state at entry to the block.

Deletion follows Django 1.x queryset `delete()` semantics: the foreign keys
in the source are declared without `on_delete`, so the default `CASCADE`
applies — deleting Sentence rows also deletes Mention rows whose `sentence`
foreign key points at a deleted Sentence, and Relation rows whose `sentence`,
`entity` or `slot_value` foreign key points at a deleted Sentence or Mention.
-/

instance {ε α : Type} [DecidableEq ε] [DecidableEq α] : DecidableEq (Except ε α) :=
  fun x y =>
    match x, y with
    | .ok a, .ok b =>
      if h : a = b then isTrue (by rw [h])
      else isFalse (by intro hc; cases hc; exact h rfl)
    | .error a, .error b =>
      if h : a = b then isTrue (by rw [h])
      else isFalse (by intro hc; cases hc; exact h rfl)
    | .ok _, .error _ => isFalse (by intro hc; cases hc)
    | .error _, .ok _ => isFalse (by intro hc; cases hc)

/-- Row of the `Document` model: `id` is the primary key, `timestamp` is kept
opaque, `gloss` is the whole document text. -/
structure DocumentRow where
  id : String
  corpus_id : String
  source : String
  timestamp : Option String
  title : String
  gloss : String
  metadata : String
deriving DecidableEq

/-- Token of a CoreNLP sentence object: only `character_span` is read by
`annotate` (`t.character_span[0]`, `t.character_span[1]`). -/
structure Token where
  character_span : Nat × Nat
deriving DecidableEq

/-- One sentence object of the CoreNLP response.  `annotate` reads
`sentence_index`, `words`, `lemmas`, `pos_tags`, `ner_tags`, `tokens`,
`depparse` and `clean_text`; `text` is the raw sentence span, present on the
service object but deliberately not used (`# Use clean text instead of
text.`). -/
structure SentenceAnn where
  sentence_index : Int
  words : List String
  lemmas : List String
  pos_tags : List String
  ner_tags : List String
  tokens : List Token
  depparse : String
  text : String
  clean_text : String
deriving DecidableEq

/-- Result object of `CoreNLPService().annotate`: an ordered sequence of
sentence objects. -/
structure AnnotatedDocument where
  sentences : List SentenceAnn
deriving DecidableEq

/-- Row of the `Sentence` model.  `pk` is the implicit auto primary key,
`doc` is the foreign key to `Document` (stored as the document id). -/
structure SentenceRow where
  pk : Nat
  corpus_id : String
  doc : String
  sentence_index : Int
  words : List String
  lemmas : List String
  pos_tags : List String
  ner_tags : List String
  doc_char_begin : List Nat
  doc_char_end : List Nat
  dependencies : String
  gloss : String
deriving DecidableEq

/-- Row of the `Mention` model.  `doc` and `sentence` are the two foreign
keys; float scores are opaque values never inspected by `annotate`. -/
structure MentionRow where
  id : Int
  corpus_id : String
  doc : String
  sentence : Nat
  token_begin : List Nat
  token_end : List Nat
  doc_char_begin : List Nat
  doc_char_end : List Nat
  doc_canonical_char_begin : List Nat
  doc_canonical_char_end : List Nat
  ner : String
  best_entity : String
  best_entity_score : Option Int
  unambiguous_link : Bool
  alt_entity : String
  alt_entity_score : Option Int
  gloss : Option String
deriving DecidableEq

/-- Row of the `Relation` model: `sentence` is a foreign key to `Sentence`,
`entity` and `slot_value` are nullable foreign keys to `Mention`. -/
structure RelationRow where
  id : Int
  corpus_id : String
  sentence : Nat
  entity : Option Int
  entity_name : String
  entity_gloss : String
  slot_value : Option Int
  slot_value_name : String
  slot_value_gloss : String
  relation : String
  score : Option Int
deriving DecidableEq

/-- Database state: the four tables in insertion order plus the sequence
value used to assign Sentence primary keys on bulk insert. -/
structure DBState where
  documents : List DocumentRow
  sentences : List SentenceRow
  mentions : List MentionRow
  relations : List RelationRow
  nextSentencePk : Nat
deriving DecidableEq

/-- Query `Sentence.objects.filter(doc=self)`: rows of the sentence table
whose `doc` foreign key is the given document id, in table order. -/
def sentencesFor (d : String) (s : DBState) : List SentenceRow :=
  s.sentences.filter (fun r => r.doc == d)

/-- Query `Mention.objects.filter(doc=self)`. -/
def mentionsFor (d : String) (s : DBState) : List MentionRow :=
  s.mentions.filter (fun m => m.doc == d)

/-- Query `Sentence.objects.filter(doc=self).exists()`. -/
def sentenceExistsFor (d : String) (s : DBState) : Bool :=
  s.sentences.any (fun r => r.doc == d)

/-- Does a Relation row reference (through `sentence`, `entity` or
`slot_value`) one of the given dead Sentence or Mention rows? -/
def relationRefsDead (deadS : List SentenceRow) (deadM : List MentionRow)
    (r : RelationRow) : Bool :=
  deadS.any (fun sr => sr.pk == r.sentence)
    || deadM.any (fun m => r.entity == some m.id || r.slot_value == some m.id)

/-- Django `Sentence.objects.filter(p).delete()`: removes the matching
Sentence rows and, by `CASCADE`, the Mention rows pointing at them and the
Relation rows pointing at a deleted Sentence or Mention. -/
def deleteSentencesWhere (p : SentenceRow → Bool) (s : DBState) : DBState :=
  let deadS := s.sentences.filter p
  let deadM := s.mentions.filter (fun m => deadS.any (fun sr => sr.pk == m.sentence))
  { s with
    sentences := s.sentences.filter (fun r => !(p r))
    mentions := s.mentions.filter (fun m => !(deadS.any (fun sr => sr.pk == m.sentence)))
    relations := s.relations.filter (fun r => !(relationRefsDead deadS deadM r)) }

/-- Django `Mention.objects.filter(p).delete()`: removes the matching
Mention rows and, by `CASCADE`, the Relation rows pointing at them. -/
def deleteMentionsWhere (p : MentionRow → Bool) (s : DBState) : DBState :=
  let deadM := s.mentions.filter p
  { s with
    mentions := s.mentions.filter (fun m => !(p m))
    relations := s.relations.filter (fun r =>
      !(deadM.any (fun m => r.entity == some m.id || r.slot_value == some m.id))) }

/-- The `Sentence(...)` constructor call inside `annotate`, field for field:
`corpus_id=self.corpus_id, doc=self, sentence_index=s.sentence_index,
words=s.words, lemmas=s.lemmas, pos_tags=s.pos_tags, ner_tags=s.ner_tags,
doc_char_begin=[t.character_span[0] for t in s.tokens],
doc_char_end=[t.character_span[1] for t in s.tokens],
dependencies=s.depparse, gloss=s.clean_text`. -/
def mkSentence (self : DocumentRow) (pk : Nat) (sa : SentenceAnn) : SentenceRow :=
  { pk := pk
    corpus_id := self.corpus_id
    doc := self.id
    sentence_index := sa.sentence_index
    words := sa.words
    lemmas := sa.lemmas
    pos_tags := sa.pos_tags
    ner_tags := sa.ner_tags
    doc_char_begin := sa.tokens.map (fun t => t.character_span.1)
    doc_char_end := sa.tokens.map (fun t => t.character_span.2)
    dependencies := sa.depparse
    gloss := sa.clean_text }

/-- The list comprehension passed to `Sentence.objects.bulk_create`: one row
per sentence object of the response, in response order, with primary keys
assigned from the sequence. -/
def newSentences (self : DocumentRow) : Nat → List SentenceAnn → List SentenceRow
  | _, [] => []
  | base, sa :: rest => mkSentence self base sa :: newSentences self (base + 1) rest

/-- The `Mention.objects.bulk_create([...])` argument: the TODO in the source
leaves it the empty list. -/
def mentionsToCreate : List MentionRow := []

/-- Body of the `with transaction.atomic():` block of `Document.annotate`. -/
def annotateBody (self : DocumentRow) (force : Bool)
    (svc : String → Except Unit AnnotatedDocument) (insertOk : Bool)
    (s : DBState) : Except Unit DBState :=
  let s1 :=
    if sentenceExistsFor self.id s && force then
      deleteMentionsWhere (fun m => m.doc == self.id)
        (deleteSentencesWhere (fun r => r.doc == self.id) s)
    else s
  match svc self.gloss with
  | .error e => .error e
  | .ok annotated_document =>
    let rows := newSentences self s1.nextSentencePk annotated_document.sentences
    if insertOk then
      .ok { s1 with
        sentences := s1.sentences ++ rows
        mentions := s1.mentions ++ mentionsToCreate
        nextSentencePk := s1.nextSentencePk + rows.length }
    else .error ()

/-- Semantics of `with transaction.atomic():` — when the body raises, the
exception propagates and the database state rolls back to the state at entry
to the block. -/
def atomic (body : DBState → Except Unit DBState) (s : DBState) :
    Except Unit Unit × DBState :=
  match body s with
  | .ok s' => (.ok (), s')
  | .error e => (.error e, s)

/-- The whole of `Document.annotate(self, force=False, **kwargs)`: the
existence check with early return sits outside the transaction; everything
else runs inside it. -/
def annotate (self : DocumentRow) (force : Bool)
    (svc : String → Except Unit AnnotatedDocument) (insertOk : Bool)
    (s : DBState) : Except Unit Unit × DBState :=
  if sentenceExistsFor self.id s && !force then (.ok (), s)
  else atomic (annotateBody self force svc insertOk) s

/-- Parallel-array well-formedness of one sentence object of the service
response, as sketched by the service contract: one entry per token in each
of the four tag sequences and the token list. -/
def WellFormedAnn (sa : SentenceAnn) : Prop :=
  sa.words.length = sa.lemmas.length ∧
  sa.lemmas.length = sa.pos_tags.length ∧
  sa.pos_tags.length = sa.ner_tags.length ∧
  sa.ner_tags.length = sa.tokens.length

instance (sa : SentenceAnn) : Decidable (WellFormedAnn sa) := by
  unfold WellFormedAnn; infer_instance

/-- Table invariant: Sentence primary keys already in the table are below
the sequence value used for the next insert. -/
def PkFresh (s : DBState) : Prop :=
  ∀ r ∈ s.sentences, r.pk < s.nextSentencePk

instance (s : DBState) : Decidable (PkFresh s) := by
  unfold PkFresh
  exact List.decidableBAll _ s.sentences

/-- Denormalization invariant: a Mention's replicated `doc` field agrees
with the `doc` of the Sentence row its `sentence` foreign key points at. -/
def MentionDocConsistent (s : DBState) : Prop :=
  ∀ m ∈ s.mentions, ∀ sr ∈ s.sentences, sr.pk = m.sentence → sr.doc = m.doc

instance (s : DBState) : Decidable (MentionDocConsistent s) := by
  unfold MentionDocConsistent
  exact List.decidableBAll _ s.mentions

/-! ### Concrete example values (the spec's example scenario and witnesses) -/

/-- The example Document: `gloss = "Obama was president. He visited Paris."`. -/
def exDoc : DocumentRow :=
  { id := "doc1", corpus_id := "default", source := "default", timestamp := none
    title := "example", gloss := "Obama was president. He visited Paris."
    metadata := "" }

/-- First sentence object of the example service response. -/
def exAnn0 : SentenceAnn :=
  { sentence_index := 0
    words := ["Obama", "was", "president", "."]
    lemmas := ["Obama", "be", "president", "."]
    pos_tags := ["NNP", "VBD", "NN", "."]
    ner_tags := ["PERSON", "O", "TITLE", "O"]
    tokens := [⟨(0, 5)⟩, ⟨(6, 9)⟩, ⟨(10, 19)⟩, ⟨(19, 20)⟩]
    depparse := "1\tObama\t3\tnsubj"
    text := "Obama was president. "
    clean_text := "Obama was president." }

/-- Second sentence object of the example service response. -/
def exAnn1 : SentenceAnn :=
  { sentence_index := 1
    words := ["He", "visited", "Paris", "."]
    lemmas := ["he", "visit", "Paris", "."]
    pos_tags := ["PRP", "VBD", "NNP", "."]
    ner_tags := ["O", "O", "LOCATION", "O"]
    tokens := [⟨(21, 23)⟩, ⟨(24, 31)⟩, ⟨(32, 37)⟩, ⟨(37, 38)⟩]
    depparse := "1\tHe\t2\tnsubj"
    text := "He visited Paris."
    clean_text := "He visited Paris." }

/-- The example service response: two sentence objects, in order. -/
def exAD : AnnotatedDocument := ⟨[exAnn0, exAnn1]⟩

/-- A service that always succeeds with the example response. -/
def exSvc : String → Except Unit AnnotatedDocument := fun _ => Except.ok exAD

/-- A service call that fails (network/timeout/malformed response). -/
def svcFail : String → Except Unit AnnotatedDocument := fun _ => Except.error ()

/-- Database holding only the example Document, not yet annotated. -/
def emptyDB : DBState :=
  { documents := [exDoc], sentences := [], mentions := [], relations := []
    nextSentencePk := 0 }

/-- An already-persisted Sentence row of the example Document. -/
def exSentRow : SentenceRow := mkSentence exDoc 0 exAnn0

/-- An already-persisted Mention row attached to `exSentRow`. -/
def exMention : MentionRow :=
  { id := 1, corpus_id := "default", doc := "doc1", sentence := 0
    token_begin := [0], token_end := [1], doc_char_begin := [0], doc_char_end := [5]
    doc_canonical_char_begin := [0], doc_canonical_char_end := [5]
    ner := "PERSON", best_entity := "Obama", best_entity_score := none
    unambiguous_link := true, alt_entity := "", alt_entity_score := none
    gloss := some "Obama" }

/-- An already-persisted Relation row attached to `exSentRow` and `exMention`. -/
def exRelation : RelationRow :=
  { id := 1, corpus_id := "default", sentence := 0, entity := some 1
    entity_name := "Obama", entity_gloss := "Obama", slot_value := none
    slot_value_name := "president", slot_value_gloss := "president"
    relation := "has_title", score := none }

/-- Database in which the example Document already has one Sentence, one
Mention and one Relation. -/
def exDB1 : DBState :=
  { documents := [exDoc], sentences := [exSentRow], mentions := [exMention]
    relations := [exRelation], nextSentencePk := 1 }

/-- A second Document, used to observe what `annotate` on `exDoc` does to
rows of other documents. -/
def exDoc2 : DocumentRow := { exDoc with id := "doc2", gloss := "Paris is nice." }

/-- A persisted Sentence row of the second Document. -/
def exSentRow2 : SentenceRow := { mkSentence exDoc2 5 exAnn1 with pk := 5 }

/-- A persisted Mention row of the second Document. -/
def exMention2 : MentionRow := { exMention with id := 2, doc := "doc2", sentence := 5 }

/-- A persisted Relation row attached to the second Document's rows. -/
def exRelation2 : RelationRow :=
  { exRelation with id := 2, sentence := 5, entity := some 2 }

/-- Database holding annotated rows of both example Documents. -/
def exDB2 : DBState :=
  { documents := [exDoc, exDoc2]
    sentences := [exSentRow, exSentRow2]
    mentions := [exMention, exMention2]
    relations := [exRelation, exRelation2]
    nextSentencePk := 6 }

/-- A Document whose `gloss` is the empty string. -/
def exDocEmpty : DocumentRow := { exDoc with id := "docE", gloss := "" }

/-- Database holding only the empty-gloss Document. -/
def emptyDBE : DBState :=
  { documents := [exDocEmpty], sentences := [], mentions := [], relations := []
    nextSentencePk := 0 }

/-- Relation between a persisted Sentence row and the sentence object of the
service response it was built from: every stored field comes from where the
source code takes it — `corpus_id` from the Document, `doc` the Document
itself, the index and token arrays and `dependencies` from the result, the
character bounds from the two components of each token's span, and `gloss`
the cleaned text (so, whenever they differ, not the raw text). -/
def FieldsFromResult (self : DocumentRow) (r : SentenceRow) (sa : SentenceAnn) : Prop :=
  r.corpus_id = self.corpus_id ∧
  r.doc = self.id ∧
  r.sentence_index = sa.sentence_index ∧
  r.words = sa.words ∧
  r.lemmas = sa.lemmas ∧
  r.pos_tags = sa.pos_tags ∧
  r.ner_tags = sa.ner_tags ∧
  r.doc_char_begin = sa.tokens.map (fun t => t.character_span.1) ∧
  r.doc_char_end = sa.tokens.map (fun t => t.character_span.2) ∧
  r.dependencies = sa.depparse ∧
  r.gloss = sa.clean_text ∧
  (sa.clean_text ≠ sa.text → r.gloss ≠ sa.text)

/-! ### Basic lemmas about the embedded operations -/

@[simp]
theorem deleteSentencesWhere_documents (p : SentenceRow → Bool) (s : DBState) :
    (deleteSentencesWhere p s).documents = s.documents := rfl

@[simp]
theorem deleteSentencesWhere_sentences (p : SentenceRow → Bool) (s : DBState) :
    (deleteSentencesWhere p s).sentences = s.sentences.filter (fun r => !(p r)) := rfl

@[simp]
theorem deleteSentencesWhere_mentions (p : SentenceRow → Bool) (s : DBState) :
    (deleteSentencesWhere p s).mentions =
      s.mentions.filter (fun m =>
        !((s.sentences.filter p).any (fun sr => sr.pk == m.sentence))) := rfl

@[simp]
theorem deleteSentencesWhere_relations (p : SentenceRow → Bool) (s : DBState) :
    (deleteSentencesWhere p s).relations =
      s.relations.filter (fun r =>
        !(relationRefsDead (s.sentences.filter p)
          (s.mentions.filter (fun m =>
            (s.sentences.filter p).any (fun sr => sr.pk == m.sentence))) r)) := rfl

@[simp]
theorem deleteSentencesWhere_nextSentencePk (p : SentenceRow → Bool) (s : DBState) :
    (deleteSentencesWhere p s).nextSentencePk = s.nextSentencePk := rfl

@[simp]
theorem deleteMentionsWhere_documents (p : MentionRow → Bool) (s : DBState) :
    (deleteMentionsWhere p s).documents = s.documents := rfl

@[simp]
theorem deleteMentionsWhere_sentences (p : MentionRow → Bool) (s : DBState) :
    (deleteMentionsWhere p s).sentences = s.sentences := rfl

@[simp]
theorem deleteMentionsWhere_mentions (p : MentionRow → Bool) (s : DBState) :
    (deleteMentionsWhere p s).mentions = s.mentions.filter (fun m => !(p m)) := rfl

@[simp]
theorem deleteMentionsWhere_relations (p : MentionRow → Bool) (s : DBState) :
    (deleteMentionsWhere p s).relations =
      s.relations.filter (fun r =>
        !((s.mentions.filter p).any (fun m =>
          r.entity == some m.id || r.slot_value == some m.id))) := rfl

@[simp]
theorem deleteMentionsWhere_nextSentencePk (p : MentionRow → Bool) (s : DBState) :
    (deleteMentionsWhere p s).nextSentencePk = s.nextSentencePk := rfl

theorem sentenceExistsFor_iff (d : String) (s : DBState) :
    sentenceExistsFor d s = true ↔ sentencesFor d s ≠ [] := by
  unfold sentenceExistsFor sentencesFor
  rw [List.any_eq_true]
  constructor
  · rintro ⟨r, hr, hd⟩ hnil
    have hmem : r ∈ s.sentences.filter (fun r => r.doc == d) :=
      List.mem_filter.2 ⟨hr, hd⟩
    rw [hnil] at hmem
    exact absurd hmem (List.not_mem_nil r)
  · intro h
    rcases List.exists_mem_of_ne_nil _ h with ⟨r, hr⟩
    have := List.mem_filter.1 hr
    exact ⟨r, this.1, this.2⟩

theorem sentenceExistsFor_eq_false (d : String) (s : DBState)
    (h : sentencesFor d s = []) : sentenceExistsFor d s = false := by
  cases hb : sentenceExistsFor d s with
  | false => rfl
  | true => exact absurd h ((sentenceExistsFor_iff d s).1 hb)

@[simp]
theorem newSentences_length (self : DocumentRow) (b : Nat) (l : List SentenceAnn) :
    (newSentences self b l).length = l.length := by
  induction l generalizing b with
  | nil => rfl
  | cons sa rest ih => simp [newSentences, ih]

theorem newSentences_mem {self : DocumentRow} {b : Nat} {l : List SentenceAnn}
    {r : SentenceRow} (h : r ∈ newSentences self b l) :
    ∃ sa ∈ l, ∃ k, b ≤ k ∧ r = mkSentence self k sa := by
  induction l generalizing b with
  | nil => simp [newSentences] at h
  | cons sa rest ih =>
    simp only [newSentences, List.mem_cons] at h
    rcases h with rfl | h
    · exact ⟨sa, List.mem_cons_self sa rest, b, Nat.le_refl b, rfl⟩
    · rcases ih h with ⟨sa', hmem, k, hk, hr⟩
      exact ⟨sa', List.mem_cons_of_mem sa hmem, k, Nat.le_of_succ_le hk, hr⟩

theorem newSentences_doc {self : DocumentRow} {b : Nat} {l : List SentenceAnn}
    {r : SentenceRow} (h : r ∈ newSentences self b l) : r.doc = self.id := by
  rcases newSentences_mem h with ⟨sa, _, k, _, rfl⟩
  rfl

theorem newSentences_pk_ge {self : DocumentRow} {b : Nat} {l : List SentenceAnn}
    {r : SentenceRow} (h : r ∈ newSentences self b l) : b ≤ r.pk := by
  rcases newSentences_mem h with ⟨sa, _, k, hk, rfl⟩
  exact hk

theorem newSentences_filter_doc (self : DocumentRow) (b : Nat) (l : List SentenceAnn) :
    (newSentences self b l).filter (fun r => r.doc == self.id) = newSentences self b l := by
  rw [List.filter_eq_self]
  intro r hr
  simp [newSentences_doc hr]

theorem newSentences_filter_ne (self : DocumentRow) (b : Nat) (l : List SentenceAnn)
    (d : String) (hd : d ≠ self.id) :
    (newSentences self b l).filter (fun r => r.doc == d) = [] := by
  rw [List.filter_eq_nil_iff]
  intro r hr
  simp only [newSentences_doc hr, beq_iff_eq]
  exact fun h => hd h.symm

theorem newSentences_map_index (self : DocumentRow) (b : Nat) (l : List SentenceAnn) :
    (newSentences self b l).map (fun r => r.sentence_index) =
      l.map (fun sa => sa.sentence_index) := by
  induction l generalizing b with
  | nil => rfl
  | cons sa rest ih => simp [newSentences, mkSentence, ih]

/-! ### Branch characterizations of `annotate` -/

theorem annotate_noop_eq (self : DocumentRow)
    (svc : String → Except Unit AnnotatedDocument) (iok : Bool) (s : DBState)
    (hex : sentenceExistsFor self.id s = true) :
    annotate self false svc iok s = (Except.ok (), s) := by
  unfold annotate
  simp [hex]

theorem annotate_svcfail_eq (self : DocumentRow) (force : Bool)
    (svc : String → Except Unit AnnotatedDocument) (iok : Bool) (s : DBState)
    (hguard : (sentenceExistsFor self.id s && !force) = false)
    (hsvc : svc self.gloss = Except.error ()) :
    annotate self force svc iok s = (Except.error (), s) := by
  unfold annotate atomic annotateBody
  rw [hguard]
  simp [hsvc]

theorem annotate_insertfail_eq (self : DocumentRow) (force : Bool)
    (svc : String → Except Unit AnnotatedDocument) (s : DBState)
    (ad : AnnotatedDocument)
    (hguard : (sentenceExistsFor self.id s && !force) = false)
    (hsvc : svc self.gloss = Except.ok ad) :
    annotate self force svc false s = (Except.error (), s) := by
  unfold annotate atomic annotateBody
  rw [hguard]
  simp [hsvc]

theorem annotate_fresh_eq (self : DocumentRow) (force : Bool)
    (svc : String → Except Unit AnnotatedDocument) (iok : Bool) (s : DBState)
    (ad : AnnotatedDocument)
    (hex : sentenceExistsFor self.id s = false)
    (hsvc : svc self.gloss = Except.ok ad) (hiok : iok = true) :
    annotate self force svc iok s =
      (Except.ok (), { s with
        sentences := s.sentences ++ newSentences self s.nextSentencePk ad.sentences
        mentions := s.mentions ++ mentionsToCreate
        nextSentencePk := s.nextSentencePk + ad.sentences.length }) := by
  subst hiok
  unfold annotate atomic annotateBody
  simp [hex, hsvc]

theorem annotate_forced_eq (self : DocumentRow)
    (svc : String → Except Unit AnnotatedDocument) (iok : Bool) (s : DBState)
    (ad : AnnotatedDocument)
    (hex : sentenceExistsFor self.id s = true)
    (hsvc : svc self.gloss = Except.ok ad) (hiok : iok = true) :
    annotate self true svc iok s =
      (Except.ok (),
        let s1 := deleteMentionsWhere (fun m => m.doc == self.id)
          (deleteSentencesWhere (fun r => r.doc == self.id) s)
        { s1 with
          sentences := s1.sentences ++ newSentences self s.nextSentencePk ad.sentences
          mentions := s1.mentions ++ mentionsToCreate
          nextSentencePk := s.nextSentencePk + ad.sentences.length }) := by
  subst hiok
  unfold annotate atomic annotateBody
  simp [hex, hsvc]

theorem filter_doc_eq_nil_of_not_exists (d : String) (s : DBState)
    (hex : sentenceExistsFor d s = false) :
    s.sentences.filter (fun r => r.doc == d) = [] := by
  rw [List.filter_eq_nil_iff]
  intro r hr
  unfold sentenceExistsFor at hex
  exact List.any_eq_false.1 hex r hr

theorem annotate_recompute_sentencesFor (self : DocumentRow) (force : Bool)
    (svc : String → Except Unit AnnotatedDocument) (s : DBState)
    (ad : AnnotatedDocument)
    (hre : force = true ∨ sentencesFor self.id s = [])
    (hsvc : svc self.gloss = Except.ok ad) :
    (annotate self force svc true s).1 = Except.ok () ∧
    sentencesFor self.id (annotate self force svc true s).2 =
      newSentences self s.nextSentencePk ad.sentences := by
  cases hex : sentenceExistsFor self.id s with
  | false =>
    rw [annotate_fresh_eq self force svc true s ad hex hsvc rfl]
    refine ⟨rfl, ?_⟩
    show (s.sentences ++ newSentences self s.nextSentencePk ad.sentences).filter
        (fun r => r.doc == self.id) = _
    rw [List.filter_append, filter_doc_eq_nil_of_not_exists self.id s hex,
      newSentences_filter_doc, List.nil_append]
  | true =>
    have hforce : force = true := by
      rcases hre with h | h
      · exact h
      · rw [sentenceExistsFor_eq_false _ _ h] at hex
        exact absurd hex (by simp)
    subst hforce
    rw [annotate_forced_eq self svc true s ad hex hsvc rfl]
    refine ⟨rfl, ?_⟩
    show ((s.sentences.filter (fun r => !(r.doc == self.id))
        ++ newSentences self s.nextSentencePk ad.sentences).filter
        (fun r => r.doc == self.id)) = _
    rw [List.filter_append, List.filter_filter, newSentences_filter_doc]
    have : (s.sentences.filter fun a => (a.doc == self.id) && !(a.doc == self.id)) = [] := by
      rw [List.filter_eq_nil_iff]
      intro a _
      simp
    rw [this, List.nil_append]

theorem annotate_guarded_eq (self : DocumentRow) (force : Bool)
    (svc : String → Except Unit AnnotatedDocument) (iok : Bool) (s : DBState)
    (hg : (sentenceExistsFor self.id s && !force) = true) :
    annotate self force svc iok s = (Except.ok (), s) := by
  unfold annotate
  rw [if_pos hg]

theorem annotate_eq_atomic (self : DocumentRow) (force : Bool)
    (svc : String → Except Unit AnnotatedDocument) (iok : Bool) (s : DBState)
    (hg : (sentenceExistsFor self.id s && !force) = false) :
    annotate self force svc iok s = atomic (annotateBody self force svc iok) s := by
  unfold annotate
  rw [hg]
  simp

theorem atomic_error_snd (b : DBState → Except Unit DBState) (s : DBState)
    (h : (atomic b s).1 = Except.error ()) : (atomic b s).2 = s := by
  unfold atomic at h ⊢
  cases hb : b s with
  | ok s' =>
    rw [hb] at h
    simp at h
  | error e => rfl

/-- Exhaustive case analysis on a run of `annotate`: the early no-op return,
a failed run (rolled back), a recompute on a document without sentences, and
a forced delete-and-recompute. -/
theorem annotate_cases (self : DocumentRow) (force : Bool)
    (svc : String → Except Unit AnnotatedDocument) (iok : Bool) (s : DBState)
    (P : Except Unit Unit × DBState → Prop)
    (hnoop : sentenceExistsFor self.id s = true → force = false → P (Except.ok (), s))
    (herr : P (Except.error (), s))
    (hfresh : ∀ ad, sentenceExistsFor self.id s = false → svc self.gloss = Except.ok ad →
      iok = true →
      P (Except.ok (), { s with
        sentences := s.sentences ++ newSentences self s.nextSentencePk ad.sentences
        mentions := s.mentions ++ mentionsToCreate
        nextSentencePk := s.nextSentencePk + ad.sentences.length }))
    (hforced : ∀ ad, sentenceExistsFor self.id s = true → force = true →
      svc self.gloss = Except.ok ad → iok = true →
      P (Except.ok (),
        let s1 := deleteMentionsWhere (fun m => m.doc == self.id)
          (deleteSentencesWhere (fun r => r.doc == self.id) s)
        { s1 with
          sentences := s1.sentences ++ newSentences self s.nextSentencePk ad.sentences
          mentions := s1.mentions ++ mentionsToCreate
          nextSentencePk := s.nextSentencePk + ad.sentences.length })) :
    P (annotate self force svc iok s) := by
  by_cases hg : (sentenceExistsFor self.id s && !force) = true
  · rw [annotate_guarded_eq self force svc iok s hg]
    have hand : sentenceExistsFor self.id s = true ∧ !force = true := by simpa using hg
    exact hnoop hand.1 (by
      cases force with
      | true => exact absurd hand.2 (by simp)
      | false => rfl)
  · have hg' : (sentenceExistsFor self.id s && !force) = false := by simpa using hg
    cases hsvc : svc self.gloss with
    | error e =>
      cases e
      rw [annotate_svcfail_eq self force svc iok s hg' hsvc]
      exact herr
    | ok ad =>
      cases hiok : iok with
      | false =>
        rw [annotate_insertfail_eq self force svc s ad hg' hsvc]
        exact herr
      | true =>
        cases hex : sentenceExistsFor self.id s with
        | false =>
          rw [annotate_fresh_eq self force svc true s ad hex hsvc rfl]
          exact hfresh ad hex hsvc hiok
        | true =>
          have hforce : force = true := by
            cases force with
            | true => rfl
            | false => rw [hex] at hg'; exact absurd hg' (by simp)
          rw [hforce, annotate_forced_eq self svc true s ad hex hsvc rfl]
          exact hforced ad hex hforce hsvc hiok

/-! ### Claim theorems -/

/-- C1: if the external service call or the bulk insert fails during
`annotate(force=True)`, the whole delete-and-recompute sequence rolls back:
the database state after the failed call is exactly the state before it; in
particular the document's Sentences and Mentions are unchanged, with no
partial deletion and no partial insertion. -/
theorem annotate_forced_failure_rolls_back (self : DocumentRow)
    (svc : String → Except Unit AnnotatedDocument) (iok : Bool) (s : DBState)
    (h : (annotate self true svc iok s).1 = Except.error ()) :
    (annotate self true svc iok s).2 = s ∧
    sentencesFor self.id (annotate self true svc iok s).2 = sentencesFor self.id s ∧
    mentionsFor self.id (annotate self true svc iok s).2 = mentionsFor self.id s := by
  have hg : (sentenceExistsFor self.id s && !true) = false := by simp
  rw [annotate_eq_atomic self true svc iok s hg] at h ⊢
  have h2 := atomic_error_snd _ s h
  rw [h2]
  exact ⟨rfl, rfl, rfl⟩

/-- Witness for C1: a concrete forced re-annotation whose service call fails
leaves the concrete database exactly as it was. -/
theorem annotate_forced_failure_rolls_back_witness :
    (annotate exDoc true svcFail true exDB1).2 = exDB1 :=
  (annotate_forced_failure_rolls_back exDoc svcFail true exDB1 (by decide)).1

/-- C2: for a document that already has a Sentence, `annotate` with
`force=False` returns immediately with the state unchanged — for any service
and any insert outcome — and a second call after a successful first call
leaves the first call's state unchanged. -/
theorem annotate_noop_idempotent (self : DocumentRow)
    (svc : String → Except Unit AnnotatedDocument) (iok : Bool) (s : DBState) :
    (sentencesFor self.id s ≠ [] →
      annotate self false svc iok s = (Except.ok (), s) ∧
      ∀ svc' iok', annotate self false svc' iok' s = (Except.ok (), s)) ∧
    (∀ s₁, annotate self false svc iok s = (Except.ok (), s₁) →
      annotate self false svc iok s₁ = (Except.ok (), s₁)) := by
  constructor
  · intro h
    have hex := (sentenceExistsFor_iff self.id s).2 h
    exact ⟨annotate_noop_eq self svc iok s hex,
      fun svc' iok' => annotate_noop_eq self svc' iok' s hex⟩
  · intro s₁ h1
    cases hex : sentenceExistsFor self.id s with
    | true =>
      rw [annotate_noop_eq self svc iok s hex] at h1
      have hs : s = s₁ := congrArg Prod.snd h1
      rw [← hs]
      exact annotate_noop_eq self svc iok s hex
    | false =>
      cases hsvc : svc self.gloss with
      | error e =>
        cases e
        rw [annotate_svcfail_eq self false svc iok s (by simp [hex]) hsvc] at h1
        exact absurd h1 (by simp)
      | ok ad =>
        cases iok with
        | false =>
          rw [annotate_insertfail_eq self false svc s ad (by simp [hex]) hsvc] at h1
          exact absurd h1 (by simp)
        | true =>
          rw [annotate_fresh_eq self false svc true s ad hex hsvc rfl] at h1
          have hs1 : s₁ = { s with
              sentences := s.sentences ++ newSentences self s.nextSentencePk ad.sentences
              mentions := s.mentions ++ mentionsToCreate
              nextSentencePk := s.nextSentencePk + ad.sentences.length } :=
            (congrArg Prod.snd h1).symm
          cases hex1 : sentenceExistsFor self.id s₁ with
          | true => exact annotate_noop_eq self svc true s₁ hex1
          | false =>
            have hfil := filter_doc_eq_nil_of_not_exists self.id s₁ hex1
            rw [hs1] at hfil
            simp only [List.filter_append] at hfil
            have hnil := (List.append_eq_nil.1 hfil).2
            rw [newSentences_filter_doc] at hnil
            have hadnil : ad.sentences = [] := by
              have hlen := congrArg List.length hnil
              rw [newSentences_length] at hlen
              exact List.length_eq_zero.1 hlen
            rw [annotate_fresh_eq self false svc true s₁ ad hex1 hsvc rfl, hadnil]
            simp [newSentences, mentionsToCreate]

/-- Witness for C2: the no-op on a concretely annotated database, and a
second concrete call reproducing the state of the first. -/
theorem annotate_noop_idempotent_witness :
    annotate exDoc false exSvc true exDB1 = (Except.ok (), exDB1) ∧
    annotate exDoc false exSvc true (annotate exDoc false exSvc true emptyDB).2 =
      (Except.ok (), (annotate exDoc false exSvc true emptyDB).2) := by
  constructor
  · exact ((annotate_noop_idempotent exDoc exSvc true exDB1).1 (by decide)).1
  · exact (annotate_noop_idempotent exDoc exSvc true emptyDB).2
      ((annotate exDoc false exSvc true emptyDB).2) (by decide)

/-- C8: `annotate` never changes the Document table: whatever the document,
force flag, service response or insert outcome, the Document rows after the
call are the rows before it. -/
theorem annotate_preserves_documents (self : DocumentRow) (force : Bool)
    (svc : String → Except Unit AnnotatedDocument) (iok : Bool) (s : DBState) :
    (annotate self force svc iok s).2.documents = s.documents := by
  refine annotate_cases self force svc iok s
    (fun out => out.2.documents = s.documents) ?_ ?_ ?_ ?_
  · intro _ _; rfl
  · rfl
  · intro ad _ _ _; rfl
  · intro ad _ _ _ _; rfl

/-- C9: `annotate` has no guard on the document's gloss: for a document with
empty gloss (and no pre-existing sentences) the call follows the ordinary
code path, its outcome entirely determined by the service's answer to the
empty string — the empty gloss is passed to the service and no precondition
error is raised. -/
theorem annotate_empty_gloss_no_guard (self : DocumentRow) (force : Bool)
    (svc : String → Except Unit AnnotatedDocument) (iok : Bool) (s : DBState)
    (hg : self.gloss = "") (hns : sentencesFor self.id s = []) :
    annotate self force svc iok s =
      match svc "" with
      | Except.error e => (Except.error e, s)
      | Except.ok ad =>
        if iok then
          (Except.ok (), { s with
            sentences := s.sentences ++ newSentences self s.nextSentencePk ad.sentences
            mentions := s.mentions ++ mentionsToCreate
            nextSentencePk := s.nextSentencePk + ad.sentences.length })
        else (Except.error (), s) := by
  have hex := sentenceExistsFor_eq_false self.id s hns
  have hguard : (sentenceExistsFor self.id s && !force) = false := by simp [hex]
  cases hsvc : svc "" with
  | error e =>
    cases e
    exact annotate_svcfail_eq self force svc iok s hguard (by rw [hg]; exact hsvc)
  | ok ad =>
    cases iok with
    | false =>
      exact annotate_insertfail_eq self force svc s ad hguard (by rw [hg]; exact hsvc)
    | true =>
      exact annotate_fresh_eq self force svc true s ad hex (by rw [hg]; exact hsvc) rfl

/-- Witness for C9: the empty-gloss document is annotated along the normal
path on a concrete database. -/
theorem annotate_empty_gloss_no_guard_witness :
    annotate exDocEmpty false exSvc true emptyDBE =
      match exSvc "" with
      | Except.error e => (Except.error e, emptyDBE)
      | Except.ok ad =>
        if true then
          (Except.ok (), { emptyDBE with
            sentences := emptyDBE.sentences
              ++ newSentences exDocEmpty emptyDBE.nextSentencePk ad.sentences
            mentions := emptyDBE.mentions ++ mentionsToCreate
            nextSentencePk := emptyDBE.nextSentencePk + ad.sentences.length })
        else (Except.error (), emptyDBE) :=
  annotate_empty_gloss_no_guard exDocEmpty false exSvc true emptyDBE (by decide) (by decide)

theorem newSentences_forall₂ (self : DocumentRow) (b : Nat) (l : List SentenceAnn) :
    List.Forall₂ (FieldsFromResult self) (newSentences self b l) l := by
  induction l generalizing b with
  | nil => exact List.Forall₂.nil
  | cons sa rest ih =>
    refine List.Forall₂.cons ?_ (ih (b + 1))
    exact ⟨rfl, rfl, rfl, rfl, rfl, rfl, rfl, rfl, rfl, rfl, rfl, fun hne => hne⟩

/-- C3: a successful `annotate(force=True)` on a document with existing
annotations deletes that document's Sentences and Mentions and recomputes:
afterwards the document's Sentence rows are exactly the rows built from the
latest service response, and none of the document's previously existing
Sentence or Mention rows survives. -/
theorem annotate_forced_replaces (self : DocumentRow)
    (svc : String → Except Unit AnnotatedDocument) (s : DBState)
    (ad : AnnotatedDocument)
    (hpk : PkFresh s)
    (hex : sentencesFor self.id s ≠ [])
    (hsvc : svc self.gloss = Except.ok ad) :
    sentencesFor self.id (annotate self true svc true s).2 =
      newSentences self s.nextSentencePk ad.sentences ∧
    (∀ r ∈ sentencesFor self.id s, r ∉ (annotate self true svc true s).2.sentences) ∧
    (∀ m ∈ mentionsFor self.id s, m ∉ (annotate self true svc true s).2.mentions) := by
  have hex' := (sentenceExistsFor_iff self.id s).2 hex
  have hchar := annotate_forced_eq self svc true s ad hex' hsvc rfl
  have hsent : (annotate self true svc true s).2.sentences =
      s.sentences.filter (fun r => !(r.doc == self.id))
        ++ newSentences self s.nextSentencePk ad.sentences := by rw [hchar]; rfl
  have hment : (annotate self true svc true s).2.mentions =
      ((s.mentions.filter (fun m =>
          !((s.sentences.filter (fun r => r.doc == self.id)).any
            (fun sr => sr.pk == m.sentence)))).filter
        (fun m => !(m.doc == self.id))) ++ mentionsToCreate := by rw [hchar]; rfl
  refine ⟨(annotate_recompute_sentencesFor self true svc s ad (Or.inl rfl) hsvc).2, ?_, ?_⟩
  · intro r hr hmem
    rw [hsent] at hmem
    have hr' := List.mem_filter.1 hr
    rcases List.mem_append.1 hmem with hmem | hmem
    · have hneg := (List.mem_filter.1 hmem).2
      rw [hr'.2] at hneg
      exact absurd hneg (by simp)
    · have hge := newSentences_pk_ge hmem
      have hlt := hpk r hr'.1
      omega
  · intro m hmm hmem
    rw [hment] at hmem
    have hm' := List.mem_filter.1 hmm
    rcases List.mem_append.1 hmem with hmem | hmem
    · have hneg := (List.mem_filter.1 hmem).2
      rw [hm'.2] at hneg
      exact absurd hneg (by simp)
    · simp [mentionsToCreate] at hmem

/-- Witness for C3: the concrete forced re-annotation replaces the Sentence
rows of the first example Document by the rows built from the response. -/
theorem annotate_forced_replaces_witness :
    sentencesFor exDoc.id (annotate exDoc true exSvc true exDB1).2 =
      newSentences exDoc exDB1.nextSentencePk exAD.sentences :=
  (annotate_forced_replaces exDoc exSvc exDB1 exAD (by decide) (by decide) (by decide)).1

/-- C4: a successful annotate that reaches the recompute step constructs
exactly one Sentence row per sentence object of the response — the persisted
rows correspond one-to-one and in order to the response — and each row's
fields are copied as the source constructs them (`FieldsFromResult`),
including `gloss` being the cleaned text rather than the raw span. -/
theorem annotate_persists_fields (self : DocumentRow) (force : Bool)
    (svc : String → Except Unit AnnotatedDocument) (s : DBState)
    (ad : AnnotatedDocument)
    (hre : force = true ∨ sentencesFor self.id s = [])
    (hsvc : svc self.gloss = Except.ok ad) :
    (sentencesFor self.id (annotate self force svc true s).2).length =
      ad.sentences.length ∧
    List.Forall₂ (FieldsFromResult self)
      (sentencesFor self.id (annotate self force svc true s).2) ad.sentences := by
  have h := (annotate_recompute_sentencesFor self force svc s ad hre hsvc).2
  rw [h]
  exact ⟨newSentences_length self s.nextSentencePk ad.sentences,
    newSentences_forall₂ self s.nextSentencePk ad.sentences⟩

/-- Witness for C4: the two persisted rows of the example scenario correspond
one-to-one to the two sentence objects of the example response. -/
theorem annotate_persists_fields_witness :
    (sentencesFor exDoc.id (annotate exDoc false exSvc true emptyDB).2).length =
      exAD.sentences.length :=
  (annotate_persists_fields exDoc false exSvc emptyDB exAD (Or.inr (by decide))
    (by decide)).1

theorem newSentences_pairwise (self : DocumentRow) (b : Nat) (l : List SentenceAnn)
    (h : l.Pairwise (fun a c => a.sentence_index ≤ c.sentence_index)) :
    (newSentences self b l).Pairwise
      (fun r r' => r.sentence_index ≤ r'.sentence_index) := by
  induction l generalizing b with
  | nil => exact List.Pairwise.nil
  | cons sa rest ih =>
    rcases List.pairwise_cons.1 h with ⟨hhead, htail⟩
    refine List.pairwise_cons.2 ⟨?_, ih (b + 1) htail⟩
    intro r' hr'
    rcases newSentences_mem hr' with ⟨sa', hsa', k, -, rfl⟩
    exact hhead sa' hsa'

/-- C5: every Sentence row persisted by `annotate` — a row present after the
call that was not present before — has its six token-parallel arrays of one
common length, provided the service response satisfies its parallel-array
contract (`WellFormedAnn`). -/
theorem annotate_parallel_lengths (self : DocumentRow) (force : Bool)
    (svc : String → Except Unit AnnotatedDocument) (iok : Bool) (s : DBState)
    (hw : ∀ ad, svc self.gloss = Except.ok ad → ∀ sa ∈ ad.sentences, WellFormedAnn sa) :
    ∀ r ∈ (annotate self force svc iok s).2.sentences, r ∉ s.sentences →
      r.words.length = r.lemmas.length ∧
      r.lemmas.length = r.pos_tags.length ∧
      r.pos_tags.length = r.ner_tags.length ∧
      r.ner_tags.length = r.doc_char_begin.length ∧
      r.doc_char_begin.length = r.doc_char_end.length := by
  refine annotate_cases self force svc iok s (fun out =>
    ∀ r ∈ out.2.sentences, r ∉ s.sentences →
      r.words.length = r.lemmas.length ∧
      r.lemmas.length = r.pos_tags.length ∧
      r.pos_tags.length = r.ner_tags.length ∧
      r.ner_tags.length = r.doc_char_begin.length ∧
      r.doc_char_begin.length = r.doc_char_end.length) ?_ ?_ ?_ ?_
  · intro _ _ r hr hnr
    exact absurd hr hnr
  · intro r hr hnr
    exact absurd hr hnr
  · intro ad hex hsvc hiok r hr hnr
    rcases List.mem_append.1 hr with hr | hr
    · exact absurd hr hnr
    · rcases newSentences_mem hr with ⟨sa, hsa, k, -, rfl⟩
      obtain ⟨h1, h2, h3, h4⟩ := hw ad hsvc sa hsa
      simp only [mkSentence, List.length_map]
      exact ⟨h1, h2, h3, h4, trivial⟩
  · intro ad hex hforce hsvc hiok r hr hnr
    rcases List.mem_append.1 hr with hr | hr
    · exact absurd ((List.mem_filter.1 hr).1) hnr
    · rcases newSentences_mem hr with ⟨sa, hsa, k, -, rfl⟩
      obtain ⟨h1, h2, h3, h4⟩ := hw ad hsvc sa hsa
      simp only [mkSentence, List.length_map]
      exact ⟨h1, h2, h3, h4, trivial⟩

/-- Witness for C5: the first persisted row of the example scenario has its
six arrays of equal length. -/
theorem annotate_parallel_lengths_witness :
    exSentRow.words.length = exSentRow.lemmas.length :=
  (annotate_parallel_lengths exDoc false exSvc true emptyDB
    (by
      intro ad had sa hsa
      simp only [exSvc, Except.ok.injEq] at had
      subst had
      exact (by decide : ∀ x ∈ exAD.sentences, WellFormedAnn x) sa hsa)
    exSentRow (by decide) (by decide)).1

/-- C6: after a successful annotate that recomputes, sorting the document's
Sentence rows by `sentence_index` yields exactly the constructed rows in the
order of the service response — whose indices correspond position by
position to the response — provided the response lists its sentences with
nondecreasing indices. -/
theorem annotate_sorted_matches_service_order (self : DocumentRow) (force : Bool)
    (svc : String → Except Unit AnnotatedDocument) (s : DBState)
    (ad : AnnotatedDocument)
    (hre : force = true ∨ sentencesFor self.id s = [])
    (hsvc : svc self.gloss = Except.ok ad)
    (hsorted : ad.sentences.Pairwise (fun a b => a.sentence_index ≤ b.sentence_index)) :
    (sentencesFor self.id (annotate self force svc true s).2).mergeSort
        (fun a b => a.sentence_index ≤ b.sentence_index) =
      newSentences self s.nextSentencePk ad.sentences ∧
    (newSentences self s.nextSentencePk ad.sentences).map (fun r => r.sentence_index) =
      ad.sentences.map (fun sa => sa.sentence_index) := by
  have h := (annotate_recompute_sentencesFor self force svc s ad hre hsvc).2
  rw [h]
  refine ⟨List.mergeSort_of_sorted ?_,
    newSentences_map_index self s.nextSentencePk ad.sentences⟩
  exact (newSentences_pairwise self s.nextSentencePk ad.sentences hsorted).imp
    (fun hab => decide_eq_true hab)

/-- Witness for C6: sorting the two concrete rows of the example scenario by
index reproduces the response order. -/
theorem annotate_sorted_matches_service_order_witness :
    (sentencesFor exDoc.id (annotate exDoc false exSvc true emptyDB).2).mergeSort
        (fun a b => a.sentence_index ≤ b.sentence_index) =
      newSentences exDoc emptyDB.nextSentencePk exAD.sentences :=
  (annotate_sorted_matches_service_order exDoc false exSvc emptyDB exAD
    (Or.inr (by decide)) (by decide) (by decide)).1

/-- C7: `annotate` never creates a Mention row: the mention bulk insert is
the empty list and the Mention table after any call is a sublist of the
table before it; on the example scenario the call produces exactly two
Sentence rows, with `sentence_index` 0 and 1 and the two cleaned sentence
texts as glosses, and zero Mention rows. -/
theorem annotate_zero_mentions :
    (∀ (self : DocumentRow) (force : Bool)
      (svc : String → Except Unit AnnotatedDocument) (iok : Bool) (s : DBState),
      ((annotate self force svc iok s).2.mentions).Sublist s.mentions) ∧
    mentionsToCreate = [] ∧
    (sentencesFor exDoc.id (annotate exDoc false exSvc true emptyDB).2).length = 2 ∧
    (sentencesFor exDoc.id (annotate exDoc false exSvc true emptyDB).2).map
      (fun r => r.sentence_index) = [0, 1] ∧
    (sentencesFor exDoc.id (annotate exDoc false exSvc true emptyDB).2).map
      (fun r => r.gloss) = ["Obama was president.", "He visited Paris."] ∧
    (annotate exDoc false exSvc true emptyDB).2.mentions = [] := by
  refine ⟨?_, rfl, by decide, by decide, by decide, by decide⟩
  intro self force svc iok s
  refine annotate_cases self force svc iok s
    (fun out => (out.2.mentions).Sublist s.mentions) ?_ ?_ ?_ ?_
  · intro _ _
    exact List.Sublist.refl _
  · exact List.Sublist.refl _
  · intro ad _ _ _
    show (s.mentions ++ mentionsToCreate).Sublist s.mentions
    simp [mentionsToCreate]
  · intro ad _ _ _ _
    show ((deleteMentionsWhere (fun m => m.doc == self.id)
        (deleteSentencesWhere (fun r => r.doc == self.id) s)).mentions
        ++ mentionsToCreate).Sublist s.mentions
    simp only [show mentionsToCreate = [] from rfl, List.append_nil]
    exact (List.filter_sublist _).trans (List.filter_sublist _)

theorem beq_and_ne (x selfid d' : String) (h : d' ≠ selfid) :
    ((x == d') && !(x == selfid)) = (x == d') := by
  by_cases hx : x = d'
  · subst hx
    have : (x == selfid) = false := by
      cases hb : x == selfid with
      | false => rfl
      | true => exact absurd (by simpa using hb) (fun he => h he)
    simp [this]
  · have : (x == d') = false := by simpa using hx
    simp [this]

/-- C10 counterexample: `annotate(force=True)` on the first example Document
deletes, through the cascading `sentence` foreign key, the Relation row
attached to that document's Sentence — so the claim that `annotate` never
touches Relation rows is false at this input: the Relation table goes from
one row to none. -/
theorem annotate_touches_relations_counterexample :
    exDB1.relations = [exRelation] ∧
    (annotate exDoc true exSvc true exDB1).1 = Except.ok () ∧
    (annotate exDoc true exSvc true exDB1).2.relations = [] := by
  exact ⟨rfl, by decide, by decide⟩

/-- C10 (amended): `annotate` on one document leaves the Sentence rows of
every other document unchanged and — under the denormalization invariant
that a Mention's replicated `doc` agrees with its Sentence's `doc` — the
Mention rows of every other document unchanged; it inserts no Relation row
(the Relation table after the call is a sublist of the table before); but
Relation rows are not always untouched: any Relation row the call removes
referenced a Sentence or a Mention of the receiving document through a
cascading foreign key. -/
theorem annotate_frame_other_documents (self : DocumentRow) (force : Bool)
    (svc : String → Except Unit AnnotatedDocument) (iok : Bool) (s : DBState)
    (hmcons : MentionDocConsistent s) :
    (∀ d', d' ≠ self.id →
      sentencesFor d' (annotate self force svc iok s).2 = sentencesFor d' s ∧
      mentionsFor d' (annotate self force svc iok s).2 = mentionsFor d' s) ∧
    ((annotate self force svc iok s).2.relations).Sublist s.relations ∧
    (∀ r ∈ s.relations, r ∉ (annotate self force svc iok s).2.relations →
      (∃ sr ∈ s.sentences, sr.doc = self.id ∧ sr.pk = r.sentence) ∨
      (∃ m ∈ s.mentions, m.doc = self.id ∧
        (r.entity = some m.id ∨ r.slot_value = some m.id))) := by
  refine annotate_cases self force svc iok s (fun out =>
    (∀ d', d' ≠ self.id →
      sentencesFor d' out.2 = sentencesFor d' s ∧
      mentionsFor d' out.2 = mentionsFor d' s) ∧
    ((out.2.relations).Sublist s.relations) ∧
    (∀ r ∈ s.relations, r ∉ out.2.relations →
      (∃ sr ∈ s.sentences, sr.doc = self.id ∧ sr.pk = r.sentence) ∨
      (∃ m ∈ s.mentions, m.doc = self.id ∧
        (r.entity = some m.id ∨ r.slot_value = some m.id)))) ?_ ?_ ?_ ?_
  · intro _ _
    exact ⟨fun d' _ => ⟨rfl, rfl⟩, List.Sublist.refl _, fun r hr hnr => absurd hr hnr⟩
  · exact ⟨fun d' _ => ⟨rfl, rfl⟩, List.Sublist.refl _, fun r hr hnr => absurd hr hnr⟩
  · intro ad hex hsvc hiok
    refine ⟨?_, List.Sublist.refl _, fun r hr hnr => absurd hr hnr⟩
    intro d' hd'
    constructor
    · show ((s.sentences ++ newSentences self s.nextSentencePk ad.sentences).filter
        (fun r => r.doc == d')) = sentencesFor d' s
      rw [List.filter_append, newSentences_filter_ne self _ _ d' hd', List.append_nil]
      rfl
    · show ((s.mentions ++ mentionsToCreate).filter (fun m => m.doc == d'))
        = mentionsFor d' s
      rw [show mentionsToCreate = [] from rfl, List.append_nil]
      rfl
  · intro ad hex hforce hsvc hiok
    refine ⟨?_, ?_, ?_⟩
    · intro d' hd'
      constructor
      · show ((s.sentences.filter (fun r => !(r.doc == self.id))
            ++ newSentences self s.nextSentencePk ad.sentences).filter
            (fun r => r.doc == d')) = sentencesFor d' s
        rw [List.filter_append, newSentences_filter_ne self _ _ d' hd', List.append_nil,
          List.filter_filter]
        exact List.filter_congr (fun a _ => beq_and_ne a.doc self.id d' hd')
      · show ((((s.mentions.filter (fun m =>
              !((s.sentences.filter (fun r => r.doc == self.id)).any
                (fun sr => sr.pk == m.sentence)))).filter
              (fun m => !(m.doc == self.id))) ++ mentionsToCreate).filter
            (fun m => m.doc == d')) = mentionsFor d' s
        rw [show mentionsToCreate = [] from rfl, List.append_nil, List.filter_filter,
          List.filter_filter]
        refine List.filter_congr ?_
        intro m hm
        by_cases hmd : m.doc = d'
        · have hself : (m.doc == self.id) = false := by
            rw [hmd]
            cases hb : d' == self.id with
            | false => rfl
            | true => exact absurd (by simpa using hb) hd'
          have hdq : (m.doc == d') = true := by simp [hmd]
          have hkeep : ((s.sentences.filter (fun r => r.doc == self.id)).any
              (fun sr => sr.pk == m.sentence)) = false := by
            rw [List.any_eq_false]
            intro sr hsr hpk
            have hsr' := List.mem_filter.1 hsr
            have hdoc : sr.doc = self.id := by simpa using hsr'.2
            have hpkeq : sr.pk = m.sentence := by simpa using hpk
            have heq := hmcons m hm sr hsr'.1 hpkeq
            rw [hdoc, hmd] at heq
            exact hd' heq.symm
          simp [hdq, hself, hkeep]
        · have hdq : (m.doc == d') = false := by simpa using hmd
          simp [hdq]
    · exact (List.filter_sublist _).trans (List.filter_sublist _)
    · intro r hr hnr
      cases hq1 : relationRefsDead
          (s.sentences.filter (fun r => r.doc == self.id))
          (s.mentions.filter (fun m =>
            (s.sentences.filter (fun r => r.doc == self.id)).any
              (fun sr => sr.pk == m.sentence))) r with
      | true =>
        simp only [relationRefsDead, Bool.or_eq_true, List.any_eq_true] at hq1
        rcases hq1 with ⟨sr, hsr, hpk⟩ | ⟨m, hmm, hor⟩
        · have hsr' := List.mem_filter.1 hsr
          exact Or.inl ⟨sr, hsr'.1, by simpa using hsr'.2, by simpa using hpk⟩
        · have hm' := List.mem_filter.1 hmm
          rcases List.any_eq_true.1 hm'.2 with ⟨sr, hsr, hpk2⟩
          have hsr' := List.mem_filter.1 hsr
          have hdocm : m.doc = self.id := by
            have heq := hmcons m hm'.1 sr hsr'.1 (by simpa using hpk2)
            rw [show sr.doc = self.id from by simpa using hsr'.2] at heq
            exact heq.symm
          refine Or.inr ⟨m, hm'.1, hdocm, ?_⟩
          simpa using hor
      | false =>
        cases hq2 : (((s.mentions.filter (fun m =>
            !((s.sentences.filter (fun r => r.doc == self.id)).any
              (fun sr => sr.pk == m.sentence)))).filter
            (fun m => m.doc == self.id)).any
            (fun m => r.entity == some m.id || r.slot_value == some m.id)) with
        | true =>
          rcases List.any_eq_true.1 hq2 with ⟨m, hmm, hor⟩
          have hm1 := List.mem_filter.1 hmm
          have hm2 := List.mem_filter.1 hm1.1
          refine Or.inr ⟨m, hm2.1, by simpa using hm1.2, ?_⟩
          simpa using hor
        | false =>
          refine absurd ?_ hnr
          show r ∈ (s.relations.filter (fun r0 =>
              !(relationRefsDead
                (s.sentences.filter (fun r1 => r1.doc == self.id))
                (s.mentions.filter (fun m =>
                  (s.sentences.filter (fun r1 => r1.doc == self.id)).any
                    (fun sr => sr.pk == m.sentence))) r0))).filter (fun r0 =>
              !(((s.mentions.filter (fun m =>
                  !((s.sentences.filter (fun r1 => r1.doc == self.id)).any
                    (fun sr => sr.pk == m.sentence)))).filter
                  (fun m => m.doc == self.id)).any
                (fun m => r0.entity == some m.id || r0.slot_value == some m.id)))
          refine List.mem_filter.2 ⟨List.mem_filter.2 ⟨hr, ?_⟩, ?_⟩
          · show Bool.not (relationRefsDead
                (s.sentences.filter (fun r1 => r1.doc == self.id))
                (s.mentions.filter (fun m =>
                  (s.sentences.filter (fun r1 => r1.doc == self.id)).any
                    (fun sr => sr.pk == m.sentence))) r) = true
            rw [hq1]
            rfl
          · show Bool.not (((s.mentions.filter (fun m =>
                  !((s.sentences.filter (fun r1 => r1.doc == self.id)).any
                    (fun sr => sr.pk == m.sentence)))).filter
                  (fun m => m.doc == self.id)).any
                (fun m => r.entity == some m.id || r.slot_value == some m.id)) = true
            rw [hq2]
            rfl

/-- Witness for C10 (amended): a forced re-annotation of the first example
Document leaves the second example Document's Sentence and Mention rows
unchanged in the concrete two-document database. -/
theorem annotate_frame_other_documents_witness :
    sentencesFor "doc2" (annotate exDoc true exSvc true exDB2).2 =
      sentencesFor "doc2" exDB2 ∧
    mentionsFor "doc2" (annotate exDoc true exSvc true exDB2).2 =
      mentionsFor "doc2" exDB2 :=
  (annotate_frame_other_documents exDoc true exSvc true exDB2 (by decide)).1
    "doc2" (by decide)
